import Mathlib

/-!
Shallow embedding of the draft-sharing service (`src/plus/drafts/draftsService.ts`)
and the issue repository-resolution helpers (`src/git/models/issue.ts`).

External collaborators (git data provider, repository registry, HTTP transport,
account store) are passed in as explicit environment records; remote responses
are modelled as values of a `Response` structure carrying the `ok` flag, status
and body, and a thrown JS `Error` is modelled as `Except.error`.  Dates are kept
abstract: `Date.parse s` is the (injective) result of `new Date(s)`.
-/

namespace GitLens

/-- Abstract model of a JS `Date` produced by `new Date(s)`. -/
structure Date where
  parsedFrom : String
deriving Repr, DecidableEq

/-- `new Date(s)`. -/
def Date.parse (s : String) : Date := ⟨s⟩

/-! ## Model of `src/git/models/issue.ts` -/

/-- The fields of `ProviderReference` read by the serializers. -/
structure ProviderReference where
  id : String
  name : String
  domain : String
  icon : String
deriving Repr, DecidableEq

/-- `IssueMember` from `issue.ts`. -/
structure IssueMember where
  id : String
  name : String
  avatarUrl : Option String
  url : Option String
deriving Repr, DecidableEq

/-- `IssueRepository` from `issue.ts`. -/
structure IssueRepository where
  owner : String
  repo : String
  accessLevel : Option Nat
  url : Option String
deriving Repr, DecidableEq

/-- `IssueLabel` from `issue.ts`. -/
structure IssueLabel where
  color : Option String
  name : String
deriving Repr, DecidableEq

/-- `IssueOrPullRequest` from `issue.ts`; `type` is `'issue' | 'pullrequest'`,
`state` is `'opened' | 'closed' | 'merged'`. -/
structure IssueOrPullRequest where
  type : String
  provider : ProviderReference
  id : String
  nodeId : Option String
  title : String
  url : String
  createdDate : Date
  updatedDate : Date
  closedDate : Option Date
  closed : Bool
  state : String
  commentsCount : Option Nat
  thumbsUpCount : Option Nat
deriving Repr, DecidableEq

/-- `IssueShape` from `issue.ts` (extends `IssueOrPullRequest`). -/
structure IssueShape extends IssueOrPullRequest where
  author : IssueMember
  assignees : List IssueMember
  repository : Option IssueRepository
  labels : Option (List IssueLabel)
  body : Option String
deriving Repr, DecidableEq

/-- `serializeIssueOrPullRequest` from `issue.ts`: rebuilds the record field by
field; `commentsCount` and `thumbsUpCount` are not copied (left `undefined`). -/
def serializeIssueOrPullRequest (value : IssueOrPullRequest) : IssueOrPullRequest :=
  { type := value.type
    provider :=
      { id := value.provider.id
        name := value.provider.name
        domain := value.provider.domain
        icon := value.provider.icon }
    id := value.id
    nodeId := value.nodeId
    title := value.title
    url := value.url
    createdDate := value.createdDate
    updatedDate := value.updatedDate
    closedDate := value.closedDate
    closed := value.closed
    state := value.state
    commentsCount := none
    thumbsUpCount := none }

/-- `serializeIssue` from `issue.ts`: rebuilds every field; the nested
`repository` record is rebuilt from `owner`/`repo`/`url` only (dropping
`accessLevel`), `author`/`assignees`/`labels` are rebuilt field by field. -/
def serializeIssue (value : IssueShape) : IssueShape :=
  { type := value.type
    provider :=
      { id := value.provider.id
        name := value.provider.name
        domain := value.provider.domain
        icon := value.provider.icon }
    id := value.id
    nodeId := value.nodeId
    title := value.title
    url := value.url
    createdDate := value.createdDate
    updatedDate := value.updatedDate
    closedDate := value.closedDate
    closed := value.closed
    state := value.state
    author :=
      { id := value.author.id
        name := value.author.name
        avatarUrl := value.author.avatarUrl
        url := value.author.url }
    repository :=
      match value.repository with
      | none => none
      | some r => some { owner := r.owner, repo := r.repo, url := r.url, accessLevel := none }
    assignees := value.assignees.map fun assignee =>
      { id := assignee.id
        name := assignee.name
        avatarUrl := assignee.avatarUrl
        url := assignee.url }
    labels :=
      match value.labels with
      | none => none
      | some ls => some (ls.map fun label => { color := label.color, name := label.name })
    commentsCount := value.commentsCount
    thumbsUpCount := value.thumbsUpCount
    body := value.body }

/-- A locally open repository handle (the fields of `Repository` the modelled
code reads). -/
structure Repository where
  id : String
  path : String
  uri : String
deriving Repr, DecidableEq

/-- Abstract model of a `vscode.Uri`. -/
structure Uri where
  scheme : String
  authority : String
  path : String
deriving Repr, DecidableEq

/-- The `remote` part of `IssueRepositoryIdentityDescriptor`. -/
structure IssueIdentityRemote where
  url : Option String
  domain : String
deriving Repr, DecidableEq

/-- The `provider` part of `IssueRepositoryIdentityDescriptor`. -/
structure IssueIdentityProvider where
  id : String
  domain : String
  repoDomain : String
  repoName : String
  repoOwnerDomain : String
deriving Repr, DecidableEq

/-- `IssueRepositoryIdentityDescriptor` from `issue.ts`. -/
structure IssueRepositoryIdentityDescriptor where
  remote : IssueIdentityRemote
  name : String
  provider : IssueIdentityProvider
deriving Repr, DecidableEq

/-- `getRepositoryIdentityForIssue` from `issue.ts` (throws when the issue has
no repository). -/
def getRepositoryIdentityForIssue (issue : IssueShape) :
    Except String IssueRepositoryIdentityDescriptor :=
  match issue.repository with
  | none => .error ("Missing repository")
  | some r =>
    .ok
      { remote := { url := r.url, domain := issue.provider.domain }
        name := r.owner ++ "/" ++ r.repo
        provider :=
          { id := issue.provider.id
            domain := issue.provider.domain
            repoDomain := r.owner
            repoName := r.repo
            repoOwnerDomain := r.owner } }

/-- `Schemes.Virtual` from `constants.ts` (file not under `src/`; the constant
is used opaquely, its value never inspected by the modelled code). -/
def schemesVirtual : String := "gitlens-virtual"

/-- External collaborators used by `getOrOpenIssueRepository`:
`vscode.Uri.parse`, `container.repositoryIdentity.getRepository` (the `Bool`
argument is the `prompt` flag; `openIfNeeded: true, keepOpen: false` on both
call sites), `container.git.getOrOpenRepository` for virtual URIs. -/
structure IssueEnv where
  parseUri : String → Uri
  getRepository : IssueRepositoryIdentityDescriptor → Bool → Option Repository
  getOrOpenRepository : Uri → Option Repository

/-- `getVirtualUriForIssue` from `issue.ts`: throws when the issue has no
repository, yields nothing for providers other than `github`, else re-schemes
the parsed repository (or issue) url. -/
def getVirtualUriForIssue (env : IssueEnv) (issue : IssueShape) : Except String (Option Uri) :=
  match issue.repository with
  | none => .error ("Missing repository")
  | some r =>
    if issue.provider.id ≠ "github" then .ok none
    else
      let uri := env.parseUri (r.url.getD issue.url)
      .ok (some { scheme := schemesVirtual, authority := "github", path := uri.path })

/-- One external lookup performed by `getOrOpenIssueRepository`, recorded in
order: a registry lookup (with its `prompt` flag) or a virtual-repository open. -/
inductive IssueLookup where
  | getRepository (identity : IssueRepositoryIdentityDescriptor) (prompt : Bool)
  | openVirtual (uri : Uri)
deriving Repr, DecidableEq

/-- The `options` of `getOrOpenIssueRepository` (JS truthiness of the two
optional flags). -/
structure IssueLookupOptions where
  promptIfNeeded : Bool
  skipVirtual : Bool
deriving Repr, DecidableEq

/-- The final `repo == null && options?.promptIfNeeded` step of
`getOrOpenIssueRepository`. -/
def issuePromptStep (env : IssueEnv) (identity : IssueRepositoryIdentityDescriptor)
    (options : IssueLookupOptions) (calls : List IssueLookup) (repo : Option Repository) :
    List IssueLookup × Except String (Option Repository) :=
  if repo.isNone && options.promptIfNeeded then
    (calls ++ [.getRepository identity true], .ok (env.getRepository identity true))
  else (calls, .ok repo)

/-- `getOrOpenIssueRepository` from `issue.ts`, returning the ordered list of
external lookups performed alongside the result. -/
def getOrOpenIssueRepository (env : IssueEnv) (issue : IssueShape)
    (options : IssueLookupOptions) : List IssueLookup × Except String (Option Repository) :=
  match getRepositoryIdentityForIssue issue with
  | .error e => ([], .error e)
  | .ok identity =>
    let repo := env.getRepository identity false
    let calls : List IssueLookup := [.getRepository identity false]
    if repo.isNone && !options.skipVirtual then
      match getVirtualUriForIssue env issue with
      | .error e => (calls, .error e)
      | .ok none => issuePromptStep env identity options calls none
      | .ok (some uri) =>
        issuePromptStep env identity options (calls ++ [.openVirtual uri])
          (env.getOrOpenRepository uri)
    else
      issuePromptStep env identity options calls repo

/-! ## Model of `draftsService.ts`: wire and domain types -/

/-- A secure upload/download descriptor (`secureUploadData`/`secureDownloadData`). -/
structure SecureLink where
  url : String
  method : String
  headers : List (String × String)
deriving Repr, DecidableEq

/-- Wire shape of a patch (`DraftPatchResponse`); `secureDownloadData` is
`none` exactly where the code erases it with `undefined!`. -/
structure DraftPatchResponse where
  id : String
  createdAt : String
  updatedAt : Option String
  draftId : String
  changesetId : String
  userId : String
  baseBranchName : String
  baseCommitSha : String
  gitRepositoryId : String
  secureDownloadData : Option SecureLink
deriving Repr, DecidableEq

/-- A patch inside a `DraftChangesetCreateResponse`: the wire patch plus its
one-time `secureUploadData`. -/
structure DraftChangesetCreatePatchResponse extends DraftPatchResponse where
  secureUploadData : SecureLink
deriving Repr, DecidableEq

/-- The changeset wire fields shared by `DraftChangesetResponse` and
`DraftChangesetCreateResponse`. -/
structure ChangesetMeta where
  id : String
  createdAt : String
  updatedAt : Option String
  draftId : String
  parentChangesetId : Option String
  userId : String
  gitUserName : Option String
  gitUserEmail : Option String
  deepLink : String
deriving Repr, DecidableEq

/-- `DraftChangesetResponse` from the wire. -/
structure DraftChangesetResponse extends ChangesetMeta where
  patches : List DraftPatchResponse
deriving Repr, DecidableEq

/-- `DraftChangesetCreateResponse` from the wire. -/
structure DraftChangesetCreateResponse extends ChangesetMeta where
  patches : List DraftChangesetCreatePatchResponse
deriving Repr, DecidableEq

/-- `DraftResponse` from the wire; optional wire fields are `Option`,
`organizationId` keeps the JS convention that `""` is falsy. -/
structure DraftResponse where
  id : String
  type : String
  createdBy : String
  role : String
  createdAt : String
  updatedAt : Option String
  organizationId : String
  isPublished : Bool
  title : String
  description : Option String
  deepLink : String
  visibility : String
  isArchived : Bool
  archivedBy : Option String
  archivedReason : Option String
  archivedAt : Option String
  latestChangesetId : String
deriving Repr, DecidableEq

/-- The current account (`container.subscription.getSubscription().account`). -/
structure SubscriptionAccount where
  id : String
  name : String
  email : Option String
deriving Repr, DecidableEq

/-- `remote` part of a repository-identity wire payload (each field may be
absent). -/
structure RepositoryIdentityRemoteResponse where
  url : Option String
  domain : Option String
  path : Option String
deriving Repr, DecidableEq

/-- `provider` part of a repository-identity wire payload. -/
structure RepositoryIdentityProviderResponse where
  id : Option String
  repoName : Option String
deriving Repr, DecidableEq

/-- `RepositoryIdentityResponse` from the wire (`'name' in data &&
typeof data.name === 'string'` is modelled as `name = some _`). -/
structure RepositoryIdentityResponse where
  id : String
  createdAt : String
  updatedAt : String
  name : Option String
  initialCommitSha : Option String
  remote : Option RepositoryIdentityRemoteResponse
  provider : Option RepositoryIdentityProviderResponse
deriving Repr, DecidableEq

/-- Domain `RepositoryIdentity` produced by `getRepositoryIdentity`. -/
structure RepositoryIdentity where
  id : String
  createdAt : Date
  updatedAt : Date
  name : String
  initialCommitSha : Option String
  remote : Option RepositoryIdentityRemoteResponse
  provider : Option RepositoryIdentityProviderResponse
deriving Repr, DecidableEq

/-- The sum-type repository reference carried by a Patch. -/
inductive RepositoryOrIdentity where
  | repo (r : Repository)
  | identity (i : RepositoryIdentity)
deriving Repr, DecidableEq

/-- One file entry of a computed diff (the fields the modelled code reads). -/
structure GitDiffFile where
  path : String
deriving Repr, DecidableEq

/-- A diff file entry tagged with its `gkRepositoryId`. -/
structure DraftPatchFileChange where
  path : String
  gkRepositoryId : String
deriving Repr, DecidableEq

/-- A git commit handle (only its `sha` is read). -/
structure GitCommit where
  sha : String
deriving Repr, DecidableEq

/-- Domain `DraftPatch` produced by `formatPatch`. -/
structure DraftPatch where
  type : String
  id : String
  createdAt : Date
  updatedAt : Date
  draftId : String
  changesetId : String
  userId : String
  baseBranchName : String
  baseRef : String
  gkRepositoryId : String
  secureLink : Option SecureLink
  commit : Option GitCommit
  contents : Option String
  files : Option (List DraftPatchFileChange)
  repository : Option RepositoryOrIdentity
deriving Repr, DecidableEq

/-- Domain `DraftChangeset` produced by `formatChangeset`. -/
structure DraftChangeset where
  id : String
  createdAt : Date
  updatedAt : Date
  draftId : String
  parentChangesetId : Option String
  userId : String
  gitUserName : Option String
  gitUserEmail : Option String
  deepLinkUrl : String
  patches : List DraftPatch
deriving Repr, DecidableEq

/-- The `author` field of a domain `Draft`. -/
structure DraftAuthor where
  id : String
  name : Option String
  email : Option String
deriving Repr, DecidableEq

/-- Domain `Draft` produced by `formatDraft` (`changesets` is assigned
separately by the callers, `formatDraft` leaves it absent). -/
structure Draft where
  draftType : String
  type : String
  id : String
  createdAt : Date
  updatedAt : Date
  author : DraftAuthor
  isMine : Bool
  organizationId : Option String
  role : String
  isPublished : Bool
  title : String
  description : Option String
  deepLinkUrl : String
  visibility : String
  isArchived : Bool
  archivedBy : Option String
  archivedReason : Option String
  archivedAt : Option Date
  latestChangesetId : String
  changesets : Option (List DraftChangeset)
deriving Repr, DecidableEq

/-- Options of `formatDraft`. -/
structure FormatDraftOptions where
  account : Option SubscriptionAccount
  fallbackAuthorName : Option String
  fromPrEntityId : Option Bool
deriving Repr, DecidableEq

/-- Options of `formatPatch`. -/
structure FormatPatchOptions where
  commit : Option GitCommit
  contents : Option String
  files : Option (List DraftPatchFileChange)
  repository : Option RepositoryOrIdentity
deriving Repr, DecidableEq

/-- `formatPatch` from `draftsService.ts`: pure wire-to-domain mapping;
hydration fields are optional pass-through from `options`. -/
def formatPatch (patchResponse : DraftPatchResponse) (options : Option FormatPatchOptions) :
    DraftPatch :=
  { type := "cloud"
    id := patchResponse.id
    createdAt := Date.parse patchResponse.createdAt
    updatedAt := Date.parse (patchResponse.updatedAt.getD patchResponse.createdAt)
    draftId := patchResponse.draftId
    changesetId := patchResponse.changesetId
    userId := patchResponse.userId
    baseBranchName := patchResponse.baseBranchName
    baseRef := patchResponse.baseCommitSha
    gkRepositoryId := patchResponse.gitRepositoryId
    secureLink := patchResponse.secureDownloadData
    commit := options.bind (·.commit)
    contents := options.bind (·.contents)
    files := options.bind (·.files)
    repository := options.bind (·.repository) }

/-- `formatChangeset` from `draftsService.ts`. -/
def formatChangeset (changesetResponse : DraftChangesetResponse) : DraftChangeset :=
  { id := changesetResponse.id
    createdAt := Date.parse changesetResponse.createdAt
    updatedAt := Date.parse (changesetResponse.updatedAt.getD changesetResponse.createdAt)
    draftId := changesetResponse.draftId
    parentChangesetId := changesetResponse.parentChangesetId
    userId := changesetResponse.userId
    gitUserName := changesetResponse.gitUserName
    gitUserEmail := changesetResponse.gitUserEmail
    deepLinkUrl := changesetResponse.deepLink
    patches := changesetResponse.patches.map fun patch => formatPatch patch none }

/-- `formatDraft` from `draftsService.ts`: ownership, role defaulting and
timestamp fallback. -/
def formatDraft (draftResponse : DraftResponse) (options : Option FormatDraftOptions) : Draft :=
  let account := options.bind (·.account)
  let baseAuthor : DraftAuthor :=
    { id := draftResponse.createdBy
      name := options.bind (·.fallbackAuthorName)
      email := none }
  let isMine :=
    match account with
    | some a => draftResponse.createdBy = a.id
    | none => false
  let author :=
    match account with
    | some a =>
      if draftResponse.createdBy = a.id then
        { baseAuthor with name := some (a.name ++ " (you)"), email := a.email }
      else baseAuthor
    | none => baseAuthor
  let role :=
    if draftResponse.role = "" then
      if options.bind (·.fromPrEntityId) = some true then "editor" else "viewer"
    else draftResponse.role
  { draftType := "cloud"
    type := draftResponse.type
    id := draftResponse.id
    createdAt := Date.parse draftResponse.createdAt
    updatedAt := Date.parse (draftResponse.updatedAt.getD draftResponse.createdAt)
    author := author
    isMine := isMine
    organizationId :=
      if draftResponse.organizationId = "" then none else some draftResponse.organizationId
    role := role
    isPublished := draftResponse.isPublished
    title := draftResponse.title
    description := draftResponse.description
    deepLinkUrl := draftResponse.deepLink
    visibility := draftResponse.visibility
    isArchived := draftResponse.isArchived
    archivedBy := draftResponse.archivedBy
    archivedReason := draftResponse.archivedReason
    archivedAt := draftResponse.archivedAt.map Date.parse
    latestChangesetId := draftResponse.latestChangesetId
    changesets := none }

/-! ## Model of `draftsService.ts`: errors, responses and operations -/

/-- A thrown JS `Error`: either a plain error or an `AggregateError` carrying
the ordered list of underlying causes. -/
inductive DraftError where
  | simple (message : String)
  | aggregate (errors : List DraftError) (message : String)

/-- The parsed error envelope of a failed response: `{error: string}` or
`{error: {message?}}`. -/
inductive ErrorBody where
  | str (s : String)
  | obj (message : Option String)
deriving Repr, DecidableEq

/-- A transport response: the `ok` flag (2xx), status, status text, the error
envelope the body parses to (`none` when parsing throws or yields no error),
and the decoded success body. -/
structure Response (α : Type) where
  ok : Bool
  status : Nat
  statusText : String
  errorJson : Option ErrorBody
  body : α
deriving Repr, DecidableEq

/-- `handleBadDraftResponse` from `draftsService.ts`: builds the thrown
message from the operation description, HTTP status and best-effort extracted
server error message. -/
def handleBadDraftResponse {α : Type} (message : String) (rsp : Response α) : String :=
  let rspErrorMessage :=
    match rsp.errorJson with
    | some (.str s) => s
    | some (.obj m) => m.getD rsp.statusText
    | none => rsp.statusText
  message ++ ": (" ++ toString rsp.status ++ ") " ++ rspErrorMessage

/-- `getSettledValue` from `system/promise`: the value of a fulfilled settled
result, `undefined` for a rejected one. -/
def getSettledValue {α : Type} (r : Except DraftError α) : Option α :=
  match r with
  | .ok v => some v
  | .error _ => none

/-- `deleteDraft` from `draftsService.ts`: issues the DELETE and returns,
never inspecting the response status. -/
def deleteDraft (rsp : Except DraftError (Response Unit)) : Except DraftError Unit :=
  match rsp with
  | .error e => .error e
  | .ok _ => .ok ()

/-- `updateDraftVisibility` from `draftsService.ts`. -/
def updateDraftVisibility (id : String) (rsp : Except DraftError (Response Draft)) :
    Except DraftError Draft :=
  match rsp with
  | .error e => .error e
  | .ok r =>
    if r.ok = false then
      .error (.simple (handleBadDraftResponse ("Unable to update draft '" ++ id ++ "'") r))
    else .ok r.body

/-- A pending invitation to a draft. -/
structure DraftPendingUser where
  userId : String
  role : String
deriving Repr, DecidableEq

/-- A user attached to a draft. -/
structure DraftUser where
  userId : String
  role : String
deriving Repr, DecidableEq

/-- `addDraftUsers` from `draftsService.ts`: rejects an empty user list before
calling, then checks the response status. -/
def addDraftUsers (id : String) (pendingUsers : List DraftPendingUser)
    (rsp : Except DraftError (Response (List DraftUser))) :
    Except DraftError (List DraftUser) :=
  if pendingUsers.length = 0 then .error (.simple ("No changes found"))
  else
    match rsp with
    | .error e => .error e
    | .ok r =>
      if r.ok = false then
        .error (.simple (handleBadDraftResponse ("Unable to add users for draft '" ++ id ++ "'") r))
      else .ok r.body

/-- `removeDraftUser` from `draftsService.ts`. -/
def removeDraftUser (id : String) (userId : String) (rsp : Except DraftError (Response Unit)) :
    Except DraftError Bool :=
  match rsp with
  | .error e => .error e
  | .ok r =>
    if r.ok = false then
      .error (.simple (handleBadDraftResponse
        ("Unable to update user " ++ userId ++ " for draft '" ++ id ++ "'") r))
    else .ok true

/-- `getChangesets` from `draftsService.ts`. -/
def getChangesets (id : String)
    (rsp : Except DraftError (Response (List DraftChangesetResponse))) :
    Except DraftError (List DraftChangeset) :=
  match rsp with
  | .error e => .error e
  | .ok r =>
    if r.ok = false then
      .error (.simple (handleBadDraftResponse
        ("Unable to open changesets for draft '" ++ id ++ "'") r))
    else .ok (r.body.map formatChangeset)

/-- `getPatchCore` from `draftsService.ts`. -/
def getPatchCore (id : String) (rsp : Except DraftError (Response DraftPatchResponse)) :
    Except DraftError DraftPatch :=
  match rsp with
  | .error e => .error e
  | .ok r =>
    if r.ok = false then
      .error (.simple (handleBadDraftResponse ("Unable to open patch '" ++ id ++ "'") r))
    else .ok (formatPatch r.body none)

/-- External results consumed by `getPatchDetails`: the settled blob download
(`getPatchContentsCore`), the settled repository resolution
(`getRepositoryOrIdentity`), and the git capability `getDiffFiles` applied to
a repo path and possibly-undefined contents. -/
structure PatchDetailsEnv where
  download : Except DraftError String
  resolveRepository : Except DraftError RepositoryOrIdentity
  getDiffFiles : String → Option String → Option (List GitDiffFile)

/-- `DraftPatchDetails` as produced by `getPatchDetails` (`contents` is
`Option` because a rejected download settles to `undefined`). -/
structure DraftPatchDetails where
  id : String
  contents : Option String
  files : List DraftPatchFileChange
  repository : Option RepositoryOrIdentity
deriving Repr, DecidableEq

/-- `getPatchDetails` from `draftsService.ts` (the branch taking an already
fetched `DraftPatch`): all-settle on download + repository resolution, then
hydrate the file list scoped to the resolved repository path (empty path when
only an identity — or nothing — was resolved). -/
def getPatchDetails (env : PatchDetailsEnv) (patch : DraftPatch) : DraftPatchDetails :=
  let contents := getSettledValue env.download
  let repositoryOrIdentity := getSettledValue env.resolveRepository
  let repoPath :=
    match repositoryOrIdentity with
    | some (.repo r) => r.path
    | _ => ""
  let files := ((env.getDiffFiles repoPath contents).getD []).map
    fun f => { path := f.path, gkRepositoryId := patch.gkRepositoryId }
  { id := patch.id
    contents := contents
    files := files
    repository := repositoryOrIdentity }

/-- `getPatch` from `draftsService.ts`: fetch the patch, then copy the
hydration fields from `getPatchDetails` onto it. -/
def getPatch (id : String) (rsp : Except DraftError (Response DraftPatchResponse))
    (env : PatchDetailsEnv) : Except DraftError DraftPatch :=
  match getPatchCore id rsp with
  | .error e => .error e
  | .ok patch =>
    let details := getPatchDetails env patch
    .ok { patch with
            contents := details.contents
            files := some details.files
            repository := details.repository }

/-- The provider matcher result (`getRemoteProviderMatcher(...)(url, domain,
path)`); only `repoName` is read. -/
structure MatchedRemoteProvider where
  repoName : Option String
deriving Repr, DecidableEq

/-- External helpers of `getRepositoryIdentity`: the remote-provider matcher
and `shortenRevision` (imported from `git/models/reference`). -/
structure RepoIdentityEnv where
  matcher : String → String → String → Option MatchedRemoteProvider
  shortenRevision : String → String

/-- The `Unknown (<short sha>)` label synthesized by `getRepositoryIdentity`
when no remote path is available (JS template: a space always follows
`Unknown`, and the sha part is included only when truthy). -/
def identityUnknownLabel (env : RepoIdentityEnv) (data : RepositoryIdentityResponse) : String :=
  "Unknown " ++
    match data.initialCommitSha with
    | some sha => if sha = "" then "" else " (" ++ env.shortenRevision sha ++ ")"
    | none => ""

/-- The display-name resolution inside `getRepositoryIdentity`: explicit name,
else provider repo name, else (when url/domain/path are all present) the
matcher-derived repo name falling back to the raw remote path, else the raw
remote path, else the synthesized label. -/
def resolveIdentityName (env : RepoIdentityEnv) (data : RepositoryIdentityResponse) : String :=
  match data.name with
  | some n => n
  | none =>
    match data.provider.bind (·.repoName) with
    | some rn => rn
    | none =>
      match data.remote.bind (·.url), data.remote.bind (·.domain), data.remote.bind (·.path) with
      | some url, some domain, some path =>
        ((env.matcher url domain path).bind (·.repoName)).getD path
      | _, _, _ =>
        match data.remote.bind (·.path) with
        | some p => p
        | none => identityUnknownLabel env data

/-- `getRepositoryIdentity` from `draftsService.ts` (note: this read path
parses the body without checking `ok`). -/
def getRepositoryIdentity (env : RepoIdentityEnv)
    (rsp : Except DraftError (Response RepositoryIdentityResponse)) :
    Except DraftError RepositoryIdentity :=
  match rsp with
  | .error e => .error e
  | .ok r =>
    let data := r.body
    .ok
      { id := data.id
        createdAt := Date.parse data.createdAt
        updatedAt := Date.parse data.updatedAt
        name := resolveIdentityName env data
        initialCommitSha := data.initialCommitSha
        remote := data.remote
        provider := data.provider }

/-! ## Model of `createDraft` -/

/-- A git user identity. -/
structure GitUser where
  name : Option String
  email : Option String
deriving Repr, DecidableEq

/-- `ProviderAuth` from `draftsService.ts`. -/
structure ProviderAuth where
  provider : String
  token : String
deriving Repr, DecidableEq

/-- The `remote` part of a `RepositoryIdentityRequest`. -/
structure RemoteRequest where
  url : String
  domain : String
  path : String
deriving Repr, DecidableEq

/-- The `provider` part of a `RepositoryIdentityRequest`. -/
structure ProviderRequest where
  id : String
  repoDomain : String
  repoName : String
deriving Repr, DecidableEq

/-- `RepositoryIdentityRequest` sent with each patch. -/
structure RepositoryIdentityRequest where
  initialCommitSha : Option String
  remote : Option RemoteRequest
  provider : Option ProviderRequest
deriving Repr, DecidableEq

/-- The `patch` part of a `CreateDraftPatchRequestFromChange`. -/
structure PatchRequest where
  baseCommitSha : String
  baseBranchName : String
  gitRepoData : RepositoryIdentityRequest
  prEntityId : Option String
deriving Repr, DecidableEq

/-- `CreateDraftPatchRequestFromChange`: the per-change resolution result
(`contents` is a string — possibly empty for a self-canceling diff — since the
builder throws when no contents could be resolved). -/
structure CreateDraftPatchRequestFromChange where
  patch : PatchRequest
  contents : String
  repository : Repository
  user : Option GitUser
deriving Repr, DecidableEq

/-- Body of `POST v1/drafts`. -/
structure CreateDraftRequest where
  type : String
  title : String
  description : Option String
  visibility : String
deriving Repr, DecidableEq

/-- Body of `POST v1/drafts/:id/changesets`. -/
structure DraftChangesetCreateRequest where
  gitUserName : Option String
  gitUserEmail : Option String
  patches : List PatchRequest
deriving Repr, DecidableEq

/-- `CreateDraftResponse` (only `id` is read). -/
structure CreateDraftResponse where
  id : String
deriving Repr, DecidableEq

/-- One remote call issued by `createDraft`, recorded in order. -/
inductive RemoteCall where
  | createDraft (body : CreateDraftRequest)
  | createChangeset (draftId : String) (body : DraftChangesetCreateRequest)
  | uploadPatch (url : String) (contents : String)
  | publishDraft (draftId : String)
  | getDraft (draftId : String)
deriving Repr, DecidableEq

/-- Environment of one `createDraft` run: the transport responses of the
sequential remote protocol, the git and auth capabilities, and the current
account. -/
structure CreateDraftEnv where
  createDraftRsp : Except DraftError (Response CreateDraftResponse)
  createChangesetRsp : Except DraftError (Response DraftChangesetCreateResponse)
  uploadRsp : String → String → Except DraftError Unit
  getDiffFiles : String → Option String → Option (List GitDiffFile)
  publishRsp : Except DraftError (Response Unit)
  draftRsp : Except DraftError (Response DraftResponse)
  account : Option SubscriptionAccount
  getProviderAuthFromRepository : Repository → Option ProviderAuth

/-- Options of `createDraft`. -/
structure CreateDraftOptions where
  description : Option String
  visibility : Option String
  prEntityId : Option String
deriving Repr, DecidableEq

/-- The fulfilled per-change requests kept by `createDraft`, in input order:
empty patches (falsy `contents`) are dropped. -/
def keptPatchRequests
    (results : List (Except DraftError CreateDraftPatchRequestFromChange)) :
    List CreateDraftPatchRequestFromChange :=
  results.filterMap fun r =>
    match r with
    | .ok v => if v.contents = "" then none else some v
    | .error _ => none

/-- The rejection reasons collected by `createDraft`, in input order. -/
def failedReasons (results : List (Except DraftError CreateDraftPatchRequestFromChange)) :
    List DraftError :=
  results.filterMap fun r =>
    match r with
    | .ok _ => none
    | .error e => some e

/-- The git user recorded for the changeset: the first kept request with a
non-null user. -/
def firstPatchUser (reqs : List CreateDraftPatchRequestFromChange) : Option GitUser :=
  reqs.findSome? (·.user)

/-- The per-patch loop of `createDraft`: for each changeset-response patch,
destructure the correlated request (a missing one is a JS `TypeError`),
resolve the file list, upload the diff contents, and format the hydrated
domain patch. -/
def processChangesetPatches (env : CreateDraftEnv) :
    List DraftChangesetCreatePatchResponse → List CreateDraftPatchRequestFromChange →
    List RemoteCall × Except DraftError (List DraftPatch)
  | [], _ => ([], .ok [])
  | _ :: _, [] =>
    ([], .error (.simple ("TypeError: Cannot destructure property of undefined")))
  | p :: ps, req :: reqs =>
    let files := ((env.getDiffFiles req.repository.path (some req.contents)).getD []).map
      fun f => { path := f.path, gkRepositoryId := p.gitRepositoryId }
    let call := RemoteCall.uploadPatch p.secureUploadData.url req.contents
    match env.uploadRsp p.secureUploadData.url req.contents with
    | .error e => ([call], .error e)
    | .ok _ =>
      let newPatch := formatPatch { p.toDraftPatchResponse with secureDownloadData := none }
        (some { commit := none
                contents := some req.contents
                files := some files
                repository := some (.repo req.repository) })
      let rest := processChangesetPatches env ps reqs
      (call :: rest.1,
       match rest.2 with
       | .error e => .error e
       | .ok l => .ok (newPatch :: l))

/-- The provider-auth step of `createDraft` for `suggested_pr_change` drafts:
requires a `prEntityId` and a provider integration resolved from the first
patch's repository (reading `patchRequests[0].repository` of an empty list is
a JS `TypeError`). -/
def suggestedChangeAuth (env : CreateDraftEnv) (type : String)
    (options : Option CreateDraftOptions)
    (patchRequests : List CreateDraftPatchRequestFromChange) :
    Except DraftError (Option ProviderAuth × Option String) :=
  if type = "suggested_pr_change" then
    match options.bind (·.prEntityId) with
    | none => .error (.simple ("No pull request info provided"))
    | some pe =>
      match patchRequests.head? with
      | none => .error (.simple ("TypeError: Cannot read properties of undefined"))
      | some req0 =>
        match env.getProviderAuthFromRepository req0.repository with
        | none => .error (.simple ("No provider integration found"))
        | some auth => .ok (some auth, some pe)
  else .ok (none, none)

/-- The `CreateDraftRequest` body `createDraft` posts to `v1/drafts`. -/
def draftCreateBody (type title : String) (options : Option CreateDraftOptions) :
    CreateDraftRequest :=
  { type := type
    title := title
    description := options.bind (·.description)
    visibility := (options.bind (·.visibility)).getD ("public") }

/-- The `DraftChangesetCreateRequest` body `createDraft` posts to
`v1/drafts/:id/changesets`: the kept patch requests in input order, tagged
with the first resolved git user. -/
def changesetCreateBody
    (results : List (Except DraftError CreateDraftPatchRequestFromChange)) :
    DraftChangesetCreateRequest :=
  { gitUserName := (firstPatchUser (keptPatchRequests results)).bind (·.name)
    gitUserEmail := (firstPatchUser (keptPatchRequests results)).bind (·.email)
    patches := (keptPatchRequests results).map (·.patch) }

/-- The publish-and-refetch tail of `createDraft`: `POST .../publish`, then
`GET v1/drafts/:id`, then assemble the final Draft replacing its (empty)
changesets with the locally known changeset populated with the uploaded
patches. -/
def createDraftStage3 (env : CreateDraftEnv) (draftId : String)
    (createChangeset : DraftChangesetCreateResponse) (patches : List DraftPatch) :
    List RemoteCall × Except DraftError Draft :=
  let calls4 := [RemoteCall.publishDraft draftId]
  match env.publishRsp with
  | .error e => (calls4, .error e)
  | .ok rsp3 =>
    if rsp3.ok = false then
      (calls4, .error (.simple (handleBadDraftResponse
        ("Failed to publish draft '" ++ draftId ++ "'") rsp3)))
    else
      let calls5 := calls4 ++ [RemoteCall.getDraft draftId]
      match env.draftRsp with
      | .error e => (calls5, .error e)
      | .ok rsp4 =>
        if rsp4.ok = false then
          (calls5, .error (.simple (handleBadDraftResponse
            ("Unable to open draft '" ++ draftId ++ "'") rsp4)))
        else
          let newDraft := formatDraft rsp4.body
            (some { account := env.account
                    fallbackAuthorName := none
                    fromPrEntityId := none })
          let cs := formatChangeset { createChangeset.toChangesetMeta with patches := [] }
          (calls5, .ok { newDraft with changesets := some [{ cs with patches := patches }] })

/-- The changeset-and-upload stage of `createDraft`: `POST
v1/drafts/:id/changesets` with all patch metadata, then the per-patch upload
loop, then stage 3. -/
def createDraftStage2 (env : CreateDraftEnv) (draftId : String)
    (results : List (Except DraftError CreateDraftPatchRequestFromChange)) :
    List RemoteCall × Except DraftError Draft :=
  let calls2 := [RemoteCall.createChangeset draftId (changesetCreateBody results)]
  match env.createChangesetRsp with
  | .error e => (calls2, .error e)
  | .ok rsp2 =>
    if rsp2.ok = false then
      (calls2, .error (.simple (handleBadDraftResponse
        ("Unable to create changeset for draft '" ++ draftId ++ "'") rsp2)))
    else
      let step := processChangesetPatches env rsp2.body.patches (keptPatchRequests results)
      match step.2 with
      | .error e => (calls2 ++ step.1, .error e)
      | .ok patches =>
        let next := createDraftStage3 env draftId rsp2.body patches
        (calls2 ++ step.1 ++ next.1, next.2)

/-- The remote protocol of `createDraft` once the local checks passed: `POST
v1/drafts`, then stage 2. -/
def createDraftRemote (env : CreateDraftEnv) (type title : String)
    (results : List (Except DraftError CreateDraftPatchRequestFromChange))
    (options : Option CreateDraftOptions) : List RemoteCall × Except DraftError Draft :=
  let calls1 := [RemoteCall.createDraft (draftCreateBody type title options)]
  match env.createDraftRsp with
  | .error e => (calls1, .error e)
  | .ok rsp1 =>
    if rsp1.ok = false then
      (calls1, .error (.simple (handleBadDraftResponse ("Unable to create draft") rsp1)))
    else
      let next := createDraftStage2 env rsp1.body.id results
      (calls1 ++ next.1, next.2)

/-- `createDraft` from `draftsService.ts`, over the settled per-change
resolution results (`Promise.allSettled` of
`getCreateDraftPatchRequestFromChange`, one entry per input change).  Returns
the ordered list of remote calls issued alongside the outcome. -/
def createDraft (env : CreateDraftEnv) (type title : String)
    (results : List (Except DraftError CreateDraftPatchRequestFromChange))
    (options : Option CreateDraftOptions) : List RemoteCall × Except DraftError Draft :=
  if results.length = 0 then ([], .error (.simple ("No changes found")))
  else
    let failed := failedReasons results
    if failed.length ≠ 0 then ([], .error (.aggregate failed ("Unable to create draft")))
    else
      match suggestedChangeAuth env type options (keptPatchRequests results) with
      | .error e => ([], .error e)
      | .ok _ => createDraftRemote env type title results options

/-! ## Concrete inputs used by witness theorems -/

/-- A concrete environment where every lookup fails. -/
def issueEnv0 : IssueEnv :=
  { parseUri := fun s => { scheme := "https", authority := "github.com", path := s }
    getRepository := fun _ _ => none
    getOrOpenRepository := fun _ => none }

/-- A concrete issue living in a `github` repository. -/
def issue0 : IssueShape :=
  { type := "issue"
    provider := { id := "github", name := "GitHub", domain := "github.com", icon := "github" }
    id := "1"
    nodeId := none
    title := "t"
    url := "https://github.com/o/r/issues/1"
    createdDate := Date.parse ("2024-01-01")
    updatedDate := Date.parse ("2024-01-02")
    closedDate := none
    closed := false
    state := "opened"
    commentsCount := none
    thumbsUpCount := none
    author := { id := "u", name := "n", avatarUrl := none, url := none }
    assignees := []
    repository := some { owner := "o", repo := "r", accessLevel := none, url := some ("https://github.com/o/r") }
    labels := none
    body := none }

/-- The identity descriptor `getRepositoryIdentityForIssue` derives for `issue0`. -/
def issueIdentity0 : IssueRepositoryIdentityDescriptor :=
  { remote := { url := some ("https://github.com/o/r"), domain := "github.com" }
    name := "o/r"
    provider :=
      { id := "github", domain := "github.com", repoDomain := "o", repoName := "r",
        repoOwnerDomain := "o" } }

/-- A concrete wire draft with empty role and omitted optional timestamps. -/
def draftRsp0 : DraftResponse :=
  { id := "d1", type := "patch", createdBy := "u1", role := "", createdAt := "2024-01-01",
    updatedAt := none, organizationId := "", isPublished := true, title := "T",
    description := none, deepLink := "https://gk.dev/d1", visibility := "public",
    isArchived := false, archivedBy := none, archivedReason := none, archivedAt := none,
    latestChangesetId := "c1" }

/-- A concrete wire draft with a non-empty role and explicit timestamps. -/
def draftRsp1 : DraftResponse :=
  { draftRsp0 with
    role := "owner"
    updatedAt := some ("2024-02-02")
    archivedAt := some ("2024-03-03") }

/-- A concrete failed (non-2xx) response with a unit body. -/
def badRsp0 : Response Unit :=
  { ok := false, status := 500, statusText := "Internal Server Error", errorJson := none,
    body := () }

/-- A concrete failed (non-2xx) response with a draft body. -/
def badRspDraft : Response Draft :=
  { ok := false
    status := 403
    statusText := "Forbidden"
    errorJson := some (.obj (some ("nope")))
    body := formatDraft draftRsp0 none }

/-- A concrete failed (non-2xx) response with a user-list body. -/
def badRspUsers : Response (List DraftUser) :=
  { ok := false, status := 404, statusText := "Not Found", errorJson := some (.str "missing"),
    body := [] }

/-- A concrete identity-naming environment whose matcher always recognizes the
remote. -/
def idEnv0 : RepoIdentityEnv :=
  { matcher := fun _ _ _ => some { repoName := some ("matched") }
    shortenRevision := fun s => s.take 7 }

/-- A concrete identity-naming environment whose matcher never matches. -/
def idEnvNoMatch : RepoIdentityEnv :=
  { matcher := fun _ _ _ => none
    shortenRevision := fun s => s.take 7 }

/-- A concrete identity payload with every naming source present. -/
def idData0 : RepositoryIdentityResponse :=
  { id := "r1", createdAt := "2024-01-01", updatedAt := "2024-01-02", name := some ("explicit"),
    initialCommitSha := some ("abc123def456"),
    remote := some { url := some ("https://github.com/o/r.git"), domain := some ("github.com"),
                     path := some ("o/r") },
    provider := some { id := some ("github"), repoName := some ("prov") } }

/-- `idData0` without an explicit name. -/
def idDataProv : RepositoryIdentityResponse := { idData0 with name := none }

/-- `idData0` without explicit name or provider: only the remote matcher can
name it. -/
def idDataMatch : RepositoryIdentityResponse :=
  { idData0 with
    name := none
    provider := none }

/-- An identity whose remote lacks a url: only the raw path can name it. -/
def idDataPath : RepositoryIdentityResponse :=
  { idData0 with
    name := none
    provider := none
    remote := some { url := none, domain := some ("github.com"), path := some ("o/r") } }

/-- An identity with no remote at all: only the synthesized label remains. -/
def idDataUnknown : RepositoryIdentityResponse :=
  { idData0 with
    name := none
    provider := none
    remote := none }

/-- A successful response carrying `idData0`. -/
def idRsp0 : Response RepositoryIdentityResponse :=
  { ok := true, status := 200, statusText := "OK", errorJson := none, body := idData0 }

/-- A successful 200 response with the given body. -/
def okRsp {α : Type} (b : α) : Response α :=
  { ok := true, status := 200, statusText := "OK", errorJson := none, body := b }

/-- A concrete local repository. -/
def repo0 : Repository := { id := "repo0", path := "/r", uri := "file:///r" }

/-- A concrete patch request body. -/
def patchReq0 : PatchRequest :=
  { baseCommitSha := "basesha"
    baseBranchName := "main"
    gitRepoData := { initialCommitSha := some ("abc123"), remote := none, provider := none }
    prEntityId := none }

/-- A resolved change whose diff came back empty (self-canceling range). -/
def reqEmpty : CreateDraftPatchRequestFromChange :=
  { patch := patchReq0, contents := "", repository := repo0, user := none }

/-- A resolved change with a non-empty diff. -/
def reqA : CreateDraftPatchRequestFromChange :=
  { patch := patchReq0
    contents := "diff-a"
    repository := repo0
    user := some { name := some ("alice"), email := some ("a@x") } }

/-- A second resolved change with a non-empty diff. -/
def reqB : CreateDraftPatchRequestFromChange :=
  { patch := { patchReq0 with baseBranchName := "dev" }
    contents := "diff-b"
    repository := repo0
    user := none }

/-- A concrete changeset header returned by the changeset-creation call. -/
def csMeta0 : ChangesetMeta :=
  { id := "cs1", createdAt := "2024-01-05", updatedAt := none, draftId := "d1",
    parentChangesetId := none, userId := "u1", gitUserName := none, gitUserEmail := none,
    deepLink := "https://gk.dev/cs1" }

/-- A changeset-creation response patch with its one-time upload descriptor. -/
def csPatch (i : String) : DraftChangesetCreatePatchResponse :=
  { id := "p" ++ i
    createdAt := "2024-01-05"
    updatedAt := none
    draftId := "d1"
    changesetId := "cs1"
    userId := "u1"
    baseBranchName := "main"
    baseCommitSha := "basesha"
    gitRepositoryId := "gkr1"
    secureDownloadData := none
    secureUploadData := { url := "https://s3/" ++ i, method := "PUT", headers := [] } }

/-- A fully successful `createDraft` environment whose changeset-creation
response carries no patches (matching a request with zero patches). -/
def envNoPatches : CreateDraftEnv :=
  { createDraftRsp := .ok (okRsp { id := "d1" })
    createChangesetRsp := .ok (okRsp { toChangesetMeta := csMeta0, patches := [] })
    uploadRsp := fun _ _ => .ok ()
    getDiffFiles := fun _ _ => none
    publishRsp := .ok (okRsp ())
    draftRsp := .ok (okRsp draftRsp1)
    account := none
    getProviderAuthFromRepository := fun _ => none }

/-- A fully successful `createDraft` environment whose changeset-creation
response carries two patches, order-correlated with two requests. -/
def envTwoPatches : CreateDraftEnv :=
  { envNoPatches with
    createChangesetRsp :=
      .ok (okRsp { toChangesetMeta := csMeta0, patches := [csPatch ("1"), csPatch ("2")] }) }

/-- A concrete `getPatchDetails` environment with a successful download. -/
def pdEnv0 : PatchDetailsEnv :=
  { download := .ok ("diff-a")
    resolveRepository := .ok (.repo repo0)
    getDiffFiles := fun _ _ => none }

/-- A concrete `getPatchDetails` environment whose secure download rejects. -/
def pdEnvFail : PatchDetailsEnv :=
  { download := .error (.simple ("network failure"))
    resolveRepository := .ok (.repo repo0)
    getDiffFiles := fun _ _ => none }

/-- A concrete changeset wire payload with one patch. -/
def csRsp0 : DraftChangesetResponse :=
  { toChangesetMeta := csMeta0, patches := [(csPatch ("1")).toDraftPatchResponse] }

/-! ## Serialization lemmas (issue.ts) -/

/-- `serializeIssueOrPullRequest` only drops the two count fields. -/
theorem serializeIssueOrPullRequest_eq (w : IssueOrPullRequest) :
    serializeIssueOrPullRequest w = { w with commentsCount := none, thumbsUpCount := none } := by
  rfl

/-- `serializeIssue` only drops `accessLevel` inside `repository`. -/
theorem serializeIssue_eq (v : IssueShape) :
    serializeIssue v =
      { v with repository := v.repository.map fun r => { r with accessLevel := none } } := by
  cases hrep : v.repository <;> cases hlab : v.labels <;>
    simp [serializeIssue, hrep, hlab, Option.map, List.map_id]

/-- C10: `serializeIssue` and `serializeIssueOrPullRequest` are idempotent
projections: applying either serializer twice yields the same result as
applying it once, and every retained field of the result equals the
corresponding input field (`serializeIssue` drops only `repository.accessLevel`;
`serializeIssueOrPullRequest` drops only `commentsCount`/`thumbsUpCount`). -/
theorem serialize_issue_idempotent_projection (v : IssueShape) (w : IssueOrPullRequest) :
    serializeIssue (serializeIssue v) = serializeIssue v
    ∧ serializeIssueOrPullRequest (serializeIssueOrPullRequest w) = serializeIssueOrPullRequest w
    ∧ serializeIssue v =
        { v with repository := v.repository.map fun r => { r with accessLevel := none } }
    ∧ serializeIssueOrPullRequest w = { w with commentsCount := none, thumbsUpCount := none } := by
  refine ⟨?_, rfl, serializeIssue_eq v, serializeIssueOrPullRequest_eq w⟩
  rw [serializeIssue_eq, serializeIssue_eq]
  cases hrep : v.repository <;> simp [hrep]

/-- C9: resolving a repository from an issue identity first does a direct
non-prompting registry lookup; only if that fails (and virtual lookup is not
forbidden) is a virtual view considered, and it is opened only for the
`github` provider; a prompting lookup happens only if still unresolved and
permitted; if everything fails the result is `ok none`, never an exception. -/
theorem getOrOpenIssueRepository_resolution_order
    (env : IssueEnv) (issue : IssueShape) (options : IssueLookupOptions)
    (identity : IssueRepositoryIdentityDescriptor)
    (hid : getRepositoryIdentityForIssue issue = Except.ok identity) :
    (∃ o, (getOrOpenIssueRepository env issue options).2 = Except.ok o)
    ∧ (getOrOpenIssueRepository env issue options).1.head? =
        some (IssueLookup.getRepository identity false)
    ∧ (∀ repo, env.getRepository identity false = some repo →
        getOrOpenIssueRepository env issue options =
          ([IssueLookup.getRepository identity false], Except.ok (some repo)))
    ∧ (issue.provider.id ≠ "github" →
        ∀ uri, IssueLookup.openVirtual uri ∉ (getOrOpenIssueRepository env issue options).1)
    ∧ (options.skipVirtual = true →
        ∀ uri, IssueLookup.openVirtual uri ∉ (getOrOpenIssueRepository env issue options).1)
    ∧ (env.getRepository identity false = none → options.skipVirtual = false →
        issue.provider.id = "github" →
        ∃ uri, (getOrOpenIssueRepository env issue options).1.get? 1 =
          some (IssueLookup.openVirtual uri))
    ∧ (IssueLookup.getRepository identity true ∈ (getOrOpenIssueRepository env issue options).1 →
        options.promptIfNeeded = true ∧ env.getRepository identity false = none)
    ∧ (env.getRepository identity false = none →
        env.getRepository identity true = none →
        (∀ u, env.getOrOpenRepository u = none) →
        (getOrOpenIssueRepository env issue options).2 = Except.ok none) := by
  obtain ⟨r, hrep⟩ : ∃ r, issue.repository = some r := by
    cases hrep : issue.repository with
    | none =>
      rw [getRepositoryIdentityForIssue, hrep] at hid
      exact absurd hid (by simp)
    | some r => exact ⟨r, rfl⟩
  rcases hdir : env.getRepository identity false with _ | repo <;>
    rcases hskip : options.skipVirtual <;>
    rcases hprompt : options.promptIfNeeded <;>
    by_cases hgh : issue.provider.id = "github" <;>
    rcases hopen : env.getOrOpenRepository
      { scheme := schemesVirtual, authority := "github",
        path := (env.parseUri (r.url.getD issue.url)).path } with _ | repo2 <;>
    simp_all [getOrOpenIssueRepository, getVirtualUriForIssue, issuePromptStep, hid, hrep] <;>
    exact fun _ =>
      ⟨{ scheme := schemesVirtual, authority := "github",
         path := (env.parseUri (r.url.getD issue.url)).path },
       by rw [hopen]; simp⟩

/-! ## formatDraft theorems -/

/-- C5: in `formatDraft`, an empty input role becomes `editor` when
`fromPrEntityId` is `true`, `viewer` when it is absent or `false`; a non-empty
role passes through unchanged. -/
theorem formatDraft_role_defaulting (d : DraftResponse) (opts : Option FormatDraftOptions) :
    (d.role = "" → opts.bind (·.fromPrEntityId) = some true →
      (formatDraft d opts).role = "editor")
    ∧ (d.role = "" → opts.bind (·.fromPrEntityId) ≠ some true →
      (formatDraft d opts).role = "viewer")
    ∧ (d.role ≠ "" → (formatDraft d opts).role = d.role) := by
  refine ⟨fun h1 h2 => ?_, fun h1 h2 => ?_, fun h1 => ?_⟩
  · simp [formatDraft, h1, h2]
  · simp [formatDraft, h1, h2]
  · simp [formatDraft, h1]

/-- Witness for C5: the three role-defaulting cases at concrete drafts. -/
theorem formatDraft_role_defaulting_witness :
    (formatDraft draftRsp0
      (some { account := none, fallbackAuthorName := none, fromPrEntityId := some true })).role
        = "editor"
    ∧ (formatDraft draftRsp0 none).role = "viewer"
    ∧ (formatDraft draftRsp1 none).role = "owner" :=
  ⟨(formatDraft_role_defaulting draftRsp0
      (some { account := none, fallbackAuthorName := none, fromPrEntityId := some true })).1
    rfl rfl,
   (formatDraft_role_defaulting draftRsp0 none).2.1 rfl (by decide),
   (formatDraft_role_defaulting draftRsp1 none).2.2 (by decide)⟩

/-- C6: `formatDraft` falls `updatedAt` back to the parsed `createdAt` when
the wire payload omits `updatedAt`, and leaves `archivedAt` unset when the
payload omits it. -/
theorem formatDraft_timestamp_fallback (d : DraftResponse) (opts : Option FormatDraftOptions) :
    (d.updatedAt = none → (formatDraft d opts).updatedAt = Date.parse d.createdAt)
    ∧ (d.archivedAt = none → (formatDraft d opts).archivedAt = none) := by
  refine ⟨fun h => ?_, fun h => ?_⟩ <;> simp [formatDraft, h]

/-- Witness for C6 at a concrete payload omitting both timestamps. -/
theorem formatDraft_timestamp_fallback_witness :
    (formatDraft draftRsp0 none).updatedAt = Date.parse ("2024-01-01")
    ∧ (formatDraft draftRsp0 none).archivedAt = none :=
  ⟨(formatDraft_timestamp_fallback draftRsp0 none).1 rfl,
   (formatDraft_timestamp_fallback draftRsp0 none).2 rfl⟩

/-! ## Write/delete status-handling theorems -/

/-- C4 counterexample: `deleteDraft` receives a non-2xx response and still
returns successfully — it never inspects the status, refuting the claim that
every write/delete operation (including `deleteDraft`) throws on non-2xx. -/
theorem deleteDraft_ignores_non2xx :
    badRsp0.ok = false ∧ deleteDraft (Except.ok badRsp0) = Except.ok () :=
  ⟨rfl, rfl⟩

/-- C4 (amended): `updateDraftVisibility`, `addDraftUsers` and
`removeDraftUser` throw on a non-2xx response before parsing a success body
(the thrown message is built only from the response metadata — shown by its
independence from the body), while `deleteDraft` ignores the response status
entirely. -/
theorem write_ops_throw_on_non2xx (id userId : String)
    (r1 : Response Draft) (r2 : Response (List DraftUser)) (r0 r3 : Response Unit)
    (users : List DraftPendingUser) (husers : users ≠ [])
    (h1 : r1.ok = false) (h2 : r2.ok = false) (h3 : r3.ok = false) :
    updateDraftVisibility id (.ok r1) =
      .error (.simple (handleBadDraftResponse ("Unable to update draft '" ++ id ++ "'") r1))
    ∧ addDraftUsers id users (.ok r2) =
      .error (.simple (handleBadDraftResponse
        ("Unable to add users for draft '" ++ id ++ "'") r2))
    ∧ removeDraftUser id userId (.ok r3) =
      .error (.simple (handleBadDraftResponse
        ("Unable to update user " ++ userId ++ " for draft '" ++ id ++ "'") r3))
    ∧ (∀ b : Draft, updateDraftVisibility id (.ok { r1 with body := b }) =
        updateDraftVisibility id (.ok r1))
    ∧ deleteDraft (.ok r0) = .ok () := by
  refine ⟨?_, ?_, ?_, fun b => ?_, rfl⟩
  · simp [updateDraftVisibility, h1]
  · cases users with
    | nil => exact absurd rfl husers
    | cons u us => simp [addDraftUsers, h2]
  · simp [removeDraftUser, h3]
  · simp [updateDraftVisibility, h1, handleBadDraftResponse]

/-- Witness for C4's amended theorem at concrete failed responses. -/
theorem write_ops_throw_on_non2xx_witness :
    updateDraftVisibility ("d1") (.ok badRspDraft) =
      .error (.simple (handleBadDraftResponse ("Unable to update draft '" ++ "d1" ++ "'")
        badRspDraft))
    ∧ addDraftUsers ("d1") [{ userId := "u2", role := "viewer" }] (.ok badRspUsers) =
      .error (.simple (handleBadDraftResponse
        ("Unable to add users for draft '" ++ "d1" ++ "'") badRspUsers))
    ∧ removeDraftUser ("d1") ("u2") (.ok badRsp0) =
      .error (.simple (handleBadDraftResponse
        ("Unable to update user " ++ "u2" ++ " for draft '" ++ "d1" ++ "'") badRsp0))
    ∧ (∀ b : Draft, updateDraftVisibility ("d1") (.ok { badRspDraft with body := b }) =
        updateDraftVisibility ("d1") (.ok badRspDraft))
    ∧ deleteDraft (.ok badRsp0) = .ok () :=
  write_ops_throw_on_non2xx ("d1") ("u2") badRspDraft badRspUsers badRsp0 badRsp0
    [{ userId := "u2", role := "viewer" }] (by simp) rfl rfl rfl

/-! ## Repository-identity naming theorems -/

/-- C8: the display name of a repository identity is chosen in fallback
order: explicit payload name, else provider repo name, else (when url, domain
and path are all present) the remote-matcher-derived name falling back to the
raw remote path, else the raw remote path, else the synthesized
`Unknown (<short fingerprint>)` label; and `getRepositoryIdentity` uses
exactly this resolution for the returned identity's name. -/
theorem identityName_fallback_order (env : RepoIdentityEnv)
    (data : RepositoryIdentityResponse) :
    (∀ n, data.name = some n → resolveIdentityName env data = n)
    ∧ (∀ rn, data.name = none → data.provider.bind (·.repoName) = some rn →
        resolveIdentityName env data = rn)
    ∧ (∀ url domain path, data.name = none → data.provider.bind (·.repoName) = none →
        data.remote.bind (·.url) = some url → data.remote.bind (·.domain) = some domain →
        data.remote.bind (·.path) = some path →
        resolveIdentityName env data =
          (((env.matcher url domain path).bind (·.repoName)).getD path))
    ∧ (∀ p, data.name = none → data.provider.bind (·.repoName) = none →
        (data.remote.bind (·.url) = none ∨ data.remote.bind (·.domain) = none) →
        data.remote.bind (·.path) = some p →
        resolveIdentityName env data = p)
    ∧ (data.name = none → data.provider.bind (·.repoName) = none →
        data.remote.bind (·.path) = none →
        resolveIdentityName env data = identityUnknownLabel env data)
    ∧ (∀ r : Response RepositoryIdentityResponse, ∃ ident,
        getRepositoryIdentity env (.ok r) = .ok ident
        ∧ ident.name = resolveIdentityName env r.body) := by
  refine ⟨fun n h => ?_, fun rn h1 h2 => ?_, fun url domain path h1 h2 h3 h4 h5 => ?_,
    fun p h1 h2 h3 h4 => ?_, fun h1 h2 h3 => ?_, fun r => ⟨_, rfl, rfl⟩⟩
  · simp [resolveIdentityName, h]
  · simp [resolveIdentityName, h1, h2]
  · simp [resolveIdentityName, h1, h2, h3, h4, h5]
  · rcases h3 with h3 | h3
    · simp [resolveIdentityName, h1, h2, h3, h4]
    · rcases hurl : data.remote.bind (·.url) with _ | u <;>
        simp [resolveIdentityName, h1, h2, h3, h4, hurl]
  · rcases hurl : data.remote.bind (·.url) with _ | u <;>
      rcases hdom : data.remote.bind (·.domain) with _ | dm <;>
      simp [resolveIdentityName, h1, h2, h3, hurl, hdom]

/-- Witness for C8: each naming fallback exercised at a concrete payload. -/
theorem identityName_fallback_order_witness :
    resolveIdentityName idEnv0 idData0 = "explicit"
    ∧ resolveIdentityName idEnv0 idDataProv = "prov"
    ∧ resolveIdentityName idEnv0 idDataMatch = "matched"
    ∧ resolveIdentityName idEnvNoMatch idDataMatch = "o/r"
    ∧ resolveIdentityName idEnv0 idDataPath = "o/r"
    ∧ resolveIdentityName idEnv0 idDataUnknown = "Unknown  (abc123d)"
    ∧ ∃ ident, getRepositoryIdentity idEnv0 (.ok idRsp0) = .ok ident
        ∧ ident.name = resolveIdentityName idEnv0 idData0 :=
  ⟨(identityName_fallback_order idEnv0 idData0).1 ("explicit") rfl,
   (identityName_fallback_order idEnv0 idDataProv).2.1 ("prov") rfl rfl,
   by simpa using
     (identityName_fallback_order idEnv0 idDataMatch).2.2.1 ("https://github.com/o/r.git")
       ("github.com") ("o/r") rfl rfl rfl rfl rfl,
   by simpa using
     (identityName_fallback_order idEnvNoMatch idDataMatch).2.2.1 ("https://github.com/o/r.git")
       ("github.com") ("o/r") rfl rfl rfl rfl rfl,
   (identityName_fallback_order idEnv0 idDataPath).2.2.2.1 ("o/r") rfl rfl (Or.inl rfl) rfl,
   by simpa [identityUnknownLabel, idEnv0, idDataUnknown, idData0] using
     (identityName_fallback_order idEnv0 idDataUnknown).2.2.2.2.1 rfl rfl rfl,
   (identityName_fallback_order idEnv0 idData0).2.2.2.2.2 idRsp0⟩

/-- Witness for C9 at a concrete issue/environment (all lookups fail, so the
result is `ok`, i.e. no exception from mere non-resolution). -/
theorem getOrOpenIssueRepository_resolution_order_witness :
    ∃ o,
      (getOrOpenIssueRepository issueEnv0 issue0
        { promptIfNeeded := true, skipVirtual := false }).2 = Except.ok o :=
  (getOrOpenIssueRepository_resolution_order issueEnv0 issue0
    { promptIfNeeded := true, skipVirtual := false } issueIdentity0 rfl).1

/-! ## createDraft theorems -/

/-- The collected rejection reasons count one entry per failed change. -/
theorem failedReasons_length_countP
    (results : List (Except DraftError CreateDraftPatchRequestFromChange)) :
    (failedReasons results).length =
      results.countP (fun r => match r with | .error _ => true | .ok _ => false) := by
  induction results with
  | nil => rfl
  | cons r rs ih =>
    cases r <;> simp [failedReasons, List.countP_cons, ih] <;>
      simpa [failedReasons] using ih

/-- C3: when any per-change resolution failed, `createDraft` throws one
aggregate error whose cause list is exactly the ordered list of per-change
failures (one per failed change), and issues no remote call at all — in
particular no draft-creation call; the partition happens on the fully settled
result list. -/
theorem createDraft_aggregate_failure (env : CreateDraftEnv) (type title : String)
    (results : List (Except DraftError CreateDraftPatchRequestFromChange))
    (options : Option CreateDraftOptions)
    (hfail : failedReasons results ≠ []) :
    createDraft env type title results options =
      ([], .error (.aggregate (failedReasons results) ("Unable to create draft")))
    ∧ (failedReasons results).length =
      results.countP (fun r => match r with | .error _ => true | .ok _ => false) := by
  refine ⟨?_, failedReasons_length_countP results⟩
  have hne : results ≠ [] := by
    rintro rfl
    exact hfail rfl
  have h0 : ¬ results.length = 0 := fun h => hne (List.length_eq_zero.mp h)
  have h1 : (failedReasons results).length ≠ 0 := fun h => hfail (List.length_eq_zero.mp h)
  simp [createDraft, h0, h1]

/-- Witness for C3: one failed and one succeeded change at a concrete
environment. -/
theorem createDraft_aggregate_failure_witness :
    createDraft envNoPatches ("patch") ("t") [.error (.simple ("boom")), .ok reqA] none =
      ([], .error (.aggregate (failedReasons [.error (.simple ("boom")), .ok reqA])
        ("Unable to create draft")))
    ∧ (failedReasons [.error (.simple ("boom")), .ok reqA]).length =
      ([.error (.simple ("boom")), .ok reqA] :
          List (Except DraftError CreateDraftPatchRequestFromChange)).countP
        (fun r => match r with | .error _ => true | .ok _ => false) :=
  createDraft_aggregate_failure envNoPatches ("patch") ("t")
    [.error (.simple ("boom")), .ok reqA] none (by simp [failedReasons])

/-- The first remote call of stage 2 is the changeset creation, whose patch
list is the kept (non-empty) requests only. -/
theorem createDraftStage2_head (env : CreateDraftEnv) (draftId : String)
    (results : List (Except DraftError CreateDraftPatchRequestFromChange)) :
    (createDraftStage2 env draftId results).1.head? =
      some (RemoteCall.createChangeset draftId (changesetCreateBody results)) := by
  rcases h : env.createChangesetRsp with _ | rsp2 <;> simp [createDraftStage2, h]
  rcases hstep : (processChangesetPatches env rsp2.body.patches (keptPatchRequests results)).2
      with e | p <;>
    split_ifs <;> simp [hstep]

/-- The first remote call of the protocol is always the draft creation. -/
theorem createDraftRemote_head (env : CreateDraftEnv) (type title : String)
    (results : List (Except DraftError CreateDraftPatchRequestFromChange))
    (options : Option CreateDraftOptions) :
    (createDraftRemote env type title results options).1.head? =
      some (RemoteCall.createDraft (draftCreateBody type title options)) := by
  rcases h : env.createDraftRsp with _ | rsp1 <;> simp [createDraftRemote, h]
  split_ifs <;> simp

/-- Once the local checks pass, `createDraft` is exactly the remote protocol. -/
theorem createDraft_eq_remote (env : CreateDraftEnv) (type title : String)
    (results : List (Except DraftError CreateDraftPatchRequestFromChange))
    (options : Option CreateDraftOptions)
    (hne : results ≠ []) (hnofail : failedReasons results = [])
    (hauth : ∃ v, suggestedChangeAuth env type options (keptPatchRequests results) = .ok v) :
    createDraft env type title results options =
      createDraftRemote env type title results options := by
  obtain ⟨v, hv⟩ := hauth
  have h0 : ¬ results.length = 0 := fun h => hne (List.length_eq_zero.mp h)
  simp [createDraft, h0, hnofail, hv]

/-- C2 counterexample: a single change resolving to an empty diff does not
produce the "no changes" failure — `createDraft` proceeds to the remote
draft-creation call (first recorded call) and completes successfully. -/
theorem createDraft_empty_diff_no_failure :
    (createDraft envNoPatches ("patch") ("t") [.ok reqEmpty] none).1.head? =
      some (RemoteCall.createDraft (draftCreateBody ("patch") ("t") none))
    ∧ ∃ d, (createDraft envNoPatches ("patch") ("t") [.ok reqEmpty] none).2 = Except.ok d :=
  ⟨rfl, ⟨_, rfl⟩⟩

/-- C2 (amended): a change whose resolved diff is empty is excluded without
failing the operation (the changeset request body is built from the kept
non-empty requests only); the "no changes" error is raised only when the
input change list itself is empty — when every change resolves to an empty
diff, `createDraft` still proceeds to the remote draft-creation call and then
sends the changeset-creation call with zero patches. -/
theorem createDraft_empty_diff_handling (env : CreateDraftEnv) (type title : String)
    (results : List (Except DraftError CreateDraftPatchRequestFromChange))
    (options : Option CreateDraftOptions) :
    createDraft env type title [] options = ([], .error (.simple ("No changes found")))
    ∧ (results ≠ [] → failedReasons results = [] →
        (∃ v, suggestedChangeAuth env type options (keptPatchRequests results) = .ok v) →
        (createDraft env type title results options).1.head? =
          some (RemoteCall.createDraft (draftCreateBody type title options))
        ∧ ∀ rsp1, env.createDraftRsp = .ok rsp1 → rsp1.ok = true →
            (createDraft env type title results options).1.tail.head? =
              some (RemoteCall.createChangeset rsp1.body.id (changesetCreateBody results))) := by
  refine ⟨by simp [createDraft], fun hne hnofail hauth => ?_⟩
  rw [createDraft_eq_remote env type title results options hne hnofail hauth]
  refine ⟨createDraftRemote_head env type title results options, fun rsp1 h1 hok => ?_⟩
  simp [createDraftRemote, h1, hok]
  simpa using createDraftStage2_head env rsp1.body.id results

/-- Witness for C2's amended theorem: the empty input list fails with "no
changes", while a single empty-diff change reaches both remote calls. -/
theorem createDraft_empty_diff_handling_witness :
    createDraft envNoPatches ("patch") ("t") [] none =
      ([], .error (.simple ("No changes found")))
    ∧ (createDraft envNoPatches ("patch") ("t") [.ok reqEmpty] none).1.head? =
        some (RemoteCall.createDraft (draftCreateBody ("patch") ("t") none))
    ∧ (createDraft envNoPatches ("patch") ("t") [.ok reqEmpty] none).1.tail.head? =
        some (RemoteCall.createChangeset ("d1") (changesetCreateBody [.ok reqEmpty])) :=
  ⟨(createDraft_empty_diff_handling envNoPatches ("patch") ("t") [.ok reqEmpty] none).1,
   ((createDraft_empty_diff_handling envNoPatches ("patch") ("t") [.ok reqEmpty] none).2
      (by simp) (by simp [failedReasons]) ⟨(none, none), rfl⟩).1,
   ((createDraft_empty_diff_handling envNoPatches ("patch") ("t") [.ok reqEmpty] none).2
      (by simp) (by simp [failedReasons]) ⟨(none, none), rfl⟩).2
     (okRsp { id := "d1" }) rfl rfl⟩

/-- When every change resolved, no failure reason is collected. -/
theorem failedReasons_eq_nil
    (results : List (Except DraftError CreateDraftPatchRequestFromChange))
    (hall : ∀ r ∈ results, ∃ v, r = .ok v) : failedReasons results = [] := by
  induction results with
  | nil => rfl
  | cons r rs ih =>
    obtain ⟨v, rfl⟩ := hall r (List.mem_cons_self r rs)
    simpa [failedReasons] using ih fun x hx => hall x (List.mem_cons_of_mem _ hx)

/-- Every kept request has non-empty contents. -/
theorem keptPatchRequests_contents_ne
    (results : List (Except DraftError CreateDraftPatchRequestFromChange)) :
    ∀ v ∈ keptPatchRequests results, v.contents ≠ "" := by
  intro v hv
  obtain ⟨r, _, hr⟩ := List.mem_filterMap.mp hv
  match r with
  | .ok w =>
    by_cases hw : w.contents = "" <;> simp [hw] at hr
    rcases hr with rfl
    exact hw
  | .error e => simp at hr

/-- When every upload succeeds and the changeset response has exactly one
patch per request, the upload loop succeeds with one hydrated domain patch per
request, order-correlated, carrying the request's contents; all its patches
have both hydration fields present. -/
theorem processChangesetPatches_ok (env : CreateDraftEnv)
    (hup : ∀ u c, env.uploadRsp u c = .ok ()) :
    ∀ (ps : List DraftChangesetCreatePatchResponse)
      (reqs : List CreateDraftPatchRequestFromChange),
      ps.length = reqs.length →
      ∃ patches, (processChangesetPatches env ps reqs).2 = .ok patches
        ∧ patches.map (fun p => p.contents) = reqs.map (fun r => some r.contents)
        ∧ ∀ p ∈ patches, p.contents.isSome = true ∧ p.files.isSome = true := by
  intro ps
  induction ps with
  | nil =>
    intro reqs h
    cases reqs with
    | nil => exact ⟨[], rfl, rfl, by simp⟩
    | cons r rs => simp at h
  | cons p ps ih =>
    intro reqs h
    cases reqs with
    | nil => simp at h
    | cons req reqs' =>
      obtain ⟨patches, hp, hmap, hinv⟩ := ih reqs' (by simpa using h)
      refine ⟨formatPatch { p.toDraftPatchResponse with secureDownloadData := none }
          (some { commit := none
                  contents := some req.contents
                  files := some
                    (((env.getDiffFiles req.repository.path (some req.contents)).getD []).map
                      fun f => { path := f.path, gkRepositoryId := p.gitRepositoryId })
                  repository := some (.repo req.repository) }) :: patches,
        by simp [processChangesetPatches, hup, hp], ?_, ?_⟩
      · simp [formatPatch, hmap]
      · intro q hq
        rcases List.mem_cons.mp hq with rfl | hq'
        · simp [formatPatch]
        · exact hinv q hq'

/-- A successful protocol run: the outcome of `createDraftRemote` reduces to
stage 2. -/
theorem createDraftRemote_ok_outcome (env : CreateDraftEnv) (type title : String)
    (results : List (Except DraftError CreateDraftPatchRequestFromChange))
    (options : Option CreateDraftOptions)
    (rsp1 : Response CreateDraftResponse)
    (h1 : env.createDraftRsp = .ok rsp1) (h1ok : rsp1.ok = true) :
    (createDraftRemote env type title results options).2 =
      (createDraftStage2 env rsp1.body.id results).2 := by
  simp [createDraftRemote, h1, h1ok]

/-- A successful changeset creation and upload loop: stage 2's outcome reduces
to stage 3. -/
theorem createDraftStage2_ok_outcome (env : CreateDraftEnv) (draftId : String)
    (results : List (Except DraftError CreateDraftPatchRequestFromChange))
    (rsp2 : Response DraftChangesetCreateResponse) (patches : List DraftPatch)
    (h2 : env.createChangesetRsp = .ok rsp2) (h2ok : rsp2.ok = true)
    (hp : (processChangesetPatches env rsp2.body.patches (keptPatchRequests results)).2 =
      .ok patches) :
    (createDraftStage2 env draftId results).2 = (createDraftStage3 env draftId rsp2.body patches).2 := by
  simp [createDraftStage2, h2, h2ok, hp]

/-- A successful publish and refetch: stage 3 assembles the final draft. -/
theorem createDraftStage3_ok_outcome (env : CreateDraftEnv) (draftId : String)
    (ccs : DraftChangesetCreateResponse) (patches : List DraftPatch)
    (rsp3 : Response Unit) (rsp4 : Response DraftResponse)
    (h3 : env.publishRsp = .ok rsp3) (h3ok : rsp3.ok = true)
    (h4 : env.draftRsp = .ok rsp4) (h4ok : rsp4.ok = true) :
    (createDraftStage3 env draftId ccs patches).2 =
      .ok { formatDraft rsp4.body
              (some { account := env.account
                      fallbackAuthorName := none
                      fromPrEntityId := none }) with
            changesets :=
              some [{ formatChangeset { ccs.toChangesetMeta with patches := [] } with
                      patches := patches }] } := by
  simp [createDraftStage3, h3, h3ok, h4, h4ok]

/-- C1: for a non-empty list of changes that all resolved, with a successful
remote protocol (the changeset response carrying one upload descriptor per
kept patch, order-correlated), `createDraft` returns a Draft with exactly one
Changeset whose patches contain exactly one patch per input change that
resolved to a non-empty diff, in the same relative order, each carrying that
change's non-empty contents. -/
theorem createDraft_one_patch_per_nonempty_change (env : CreateDraftEnv)
    (type title : String)
    (results : List (Except DraftError CreateDraftPatchRequestFromChange))
    (options : Option CreateDraftOptions)
    (rsp1 : Response CreateDraftResponse) (rsp2 : Response DraftChangesetCreateResponse)
    (rsp3 : Response Unit) (rsp4 : Response DraftResponse)
    (hne : results ≠ [])
    (hall : ∀ r ∈ results, ∃ v, r = .ok v)
    (hauth : ∃ v, suggestedChangeAuth env type options (keptPatchRequests results) = .ok v)
    (h1 : env.createDraftRsp = .ok rsp1) (h1ok : rsp1.ok = true)
    (h2 : env.createChangesetRsp = .ok rsp2) (h2ok : rsp2.ok = true)
    (hlen : rsp2.body.patches.length = (keptPatchRequests results).length)
    (hup : ∀ u c, env.uploadRsp u c = .ok ())
    (h3 : env.publishRsp = .ok rsp3) (h3ok : rsp3.ok = true)
    (h4 : env.draftRsp = .ok rsp4) (h4ok : rsp4.ok = true) :
    ∃ d cs, (createDraft env type title results options).2 = .ok d
      ∧ d.changesets = some [cs]
      ∧ cs.patches.map (fun p => p.contents) =
          (keptPatchRequests results).map (fun r => some r.contents)
      ∧ cs.patches.length = (keptPatchRequests results).length
      ∧ ∀ p ∈ cs.patches, ∃ c, p.contents = some c ∧ c ≠ "" := by
  have hnofail := failedReasons_eq_nil results hall
  obtain ⟨patches, hp, hmap, _⟩ :=
    processChangesetPatches_ok env hup rsp2.body.patches (keptPatchRequests results) hlen
  rw [createDraft_eq_remote env type title results options hne hnofail hauth,
    createDraftRemote_ok_outcome env type title results options rsp1 h1 h1ok,
    createDraftStage2_ok_outcome env rsp1.body.id results rsp2 patches h2 h2ok hp,
    createDraftStage3_ok_outcome env rsp1.body.id rsp2.body patches rsp3 rsp4 h3 h3ok h4 h4ok]
  refine ⟨_, _, rfl, rfl, hmap, ?_, ?_⟩
  · simpa using congrArg List.length hmap
  · intro p hpmem
    have hmem : p.contents ∈ (keptPatchRequests results).map (fun r => some r.contents) := by
      rw [← hmap]
      exact List.mem_map_of_mem _ hpmem
    obtain ⟨r, hr, heq⟩ := List.mem_map.mp hmem
    exact ⟨r.contents, heq.symm, keptPatchRequests_contents_ne results r hr⟩

/-- Witness for C1: three resolved changes (one with an empty diff) against a
fully successful remote protocol with two order-correlated response patches. -/
theorem createDraft_one_patch_per_nonempty_change_witness :
    ∃ d cs,
      (createDraft envTwoPatches ("patch") ("t") [.ok reqA, .ok reqEmpty, .ok reqB] none).2 =
        .ok d
      ∧ d.changesets = some [cs]
      ∧ cs.patches.map (fun p => p.contents) =
          (keptPatchRequests [.ok reqA, .ok reqEmpty, .ok reqB]).map (fun r => some r.contents)
      ∧ cs.patches.length = (keptPatchRequests [.ok reqA, .ok reqEmpty, .ok reqB]).length
      ∧ ∀ p ∈ cs.patches, ∃ c, p.contents = some c ∧ c ≠ "" :=
  createDraft_one_patch_per_nonempty_change envTwoPatches ("patch") ("t")
    [.ok reqA, .ok reqEmpty, .ok reqB] none
    (okRsp { id := "d1" })
    (okRsp { toChangesetMeta := csMeta0, patches := [csPatch ("1"), csPatch ("2")] })
    (okRsp ()) (okRsp draftRsp1)
    (by simp)
    (by intro r hr
        simp at hr
        rcases hr with rfl | rfl | rfl <;> exact ⟨_, rfl⟩)
    ⟨(none, none), rfl⟩ rfl rfl rfl rfl (by decide) (fun _ _ => rfl) rfl rfl rfl rfl

/-! ## Hydration invariant -/

/-- C7 counterexample: when the secure download rejects, `getPatch` still
returns a patch, with `files` present (an empty hydrated list) but `contents`
absent — refuting the claim that every exposed Patch has `contents` and
`files` both present or both absent. -/
theorem getPatch_hydration_mismatch_on_failed_download :
    (getSettledValue
        (getPatch ("p1") (.ok (okRsp (csPatch ("1")).toDraftPatchResponse)) pdEnvFail)).map
      (fun p => (p.contents.isSome, p.files.isSome)) = some (false, true) := rfl

/-- C7 (amended): patches exposed by `getChangesets` carry neither hydration
field and every patch of a successfully created draft's changeset carries
both; `getPatchDetails` and `getPatch` carry both whenever the secure
download settled fulfilled — but when the download rejects, `getPatch` still
returns a patch with `files` present and `contents` absent, so the
both-or-neither invariant holds for every exposed Patch except on
`getPatch`/`getPatchDetails`'s rejected-download hydration path. -/
theorem exposed_patch_hydration_invariant
    (idc idp : String)
    (rspCs : Except DraftError (Response (List DraftChangesetResponse)))
    (rspP : Except DraftError (Response DraftPatchResponse))
    (pdEnv : PatchDetailsEnv) (s : String)
    (hdl : pdEnv.download = .ok s)
    (pdEnvF : PatchDetailsEnv) (err : DraftError)
    (he : pdEnvF.download = .error err)
    (env : CreateDraftEnv) (type title : String)
    (results : List (Except DraftError CreateDraftPatchRequestFromChange))
    (options : Option CreateDraftOptions)
    (rsp1 : Response CreateDraftResponse) (rsp2 : Response DraftChangesetCreateResponse)
    (rsp3 : Response Unit) (rsp4 : Response DraftResponse)
    (hne : results ≠ [])
    (hall : ∀ r ∈ results, ∃ v, r = .ok v)
    (hauth : ∃ v, suggestedChangeAuth env type options (keptPatchRequests results) = .ok v)
    (h1 : env.createDraftRsp = .ok rsp1) (h1ok : rsp1.ok = true)
    (h2 : env.createChangesetRsp = .ok rsp2) (h2ok : rsp2.ok = true)
    (hlen : rsp2.body.patches.length = (keptPatchRequests results).length)
    (hup : ∀ u c, env.uploadRsp u c = .ok ())
    (h3 : env.publishRsp = .ok rsp3) (h3ok : rsp3.ok = true)
    (h4 : env.draftRsp = .ok rsp4) (h4ok : rsp4.ok = true) :
    (∀ cs, getChangesets idc rspCs = .ok cs → ∀ c ∈ cs, ∀ p ∈ c.patches,
        p.contents.isSome = p.files.isSome)
    ∧ (∀ patch, (getPatchDetails pdEnv patch).contents = some s)
    ∧ (∀ p, getPatch idp rspP pdEnv = .ok p → p.contents.isSome = p.files.isSome)
    ∧ (∀ p, getPatch idp rspP pdEnvF = .ok p → p.contents = none ∧ p.files.isSome = true)
    ∧ (∃ d cs, (createDraft env type title results options).2 = .ok d
        ∧ d.changesets = some [cs]
        ∧ ∀ p ∈ cs.patches, p.contents.isSome = p.files.isSome) := by
  refine ⟨?_, ?_, ?_, ?_, ?_⟩
  · intro cs hcs c hc p hp
    rcases rspCs with e | r
    · simp [getChangesets] at hcs
    · by_cases hok : r.ok = false
      · simp [getChangesets, hok] at hcs
      · simp [getChangesets, hok] at hcs
        subst hcs
        obtain ⟨c', _, rfl⟩ := List.mem_map.mp hc
        obtain ⟨p', _, rfl⟩ := List.mem_map.mp (by simpa [formatChangeset] using hp)
        simp [formatPatch]
  · intro patch
    simp [getPatchDetails, hdl, getSettledValue]
  · intro p hgp
    rcases hpc : getPatchCore idp rspP with e | patch
    · simp [getPatch, hpc] at hgp
    · simp [getPatch, hpc] at hgp
      subst hgp
      simp [getPatchDetails, hdl, getSettledValue]
  · intro p hgp
    rcases hpc : getPatchCore idp rspP with e | patch
    · simp [getPatch, hpc] at hgp
    · simp [getPatch, hpc] at hgp
      subst hgp
      simp [getPatchDetails, he, getSettledValue]
  · have hnofail := failedReasons_eq_nil results hall
    obtain ⟨patches, hp, _, hinv⟩ :=
      processChangesetPatches_ok env hup rsp2.body.patches (keptPatchRequests results) hlen
    rw [createDraft_eq_remote env type title results options hne hnofail hauth,
      createDraftRemote_ok_outcome env type title results options rsp1 h1 h1ok,
      createDraftStage2_ok_outcome env rsp1.body.id results rsp2 patches h2 h2ok hp,
      createDraftStage3_ok_outcome env rsp1.body.id rsp2.body patches rsp3 rsp4 h3 h3ok h4 h4ok]
    refine ⟨_, _, rfl, rfl, fun p hpmem => ?_⟩
    rw [(hinv p hpmem).1, (hinv p hpmem).2]

/-- Witness for C7's amended theorem at concrete responses and environments
(successful and rejected downloads). -/
theorem exposed_patch_hydration_invariant_witness :
    (∀ cs, getChangesets ("d1") (.ok (okRsp [csRsp0])) = .ok cs → ∀ c ∈ cs, ∀ p ∈ c.patches,
        p.contents.isSome = p.files.isSome)
    ∧ (∀ patch, (getPatchDetails pdEnv0 patch).contents = some ("diff-a"))
    ∧ (∀ p, getPatch ("p1") (.ok (okRsp (csPatch ("1")).toDraftPatchResponse)) pdEnv0 = .ok p →
        p.contents.isSome = p.files.isSome)
    ∧ (∀ p, getPatch ("p1") (.ok (okRsp (csPatch ("1")).toDraftPatchResponse)) pdEnvFail = .ok p →
        p.contents = none ∧ p.files.isSome = true)
    ∧ (∃ d cs,
        (createDraft envTwoPatches ("patch") ("t") [.ok reqA, .ok reqEmpty, .ok reqB] none).2 =
          .ok d
        ∧ d.changesets = some [cs]
        ∧ ∀ p ∈ cs.patches, p.contents.isSome = p.files.isSome) :=
  exposed_patch_hydration_invariant ("d1") ("p1") (.ok (okRsp [csRsp0]))
    (.ok (okRsp (csPatch ("1")).toDraftPatchResponse)) pdEnv0 ("diff-a") rfl
    pdEnvFail (.simple ("network failure")) rfl
    envTwoPatches ("patch") ("t") [.ok reqA, .ok reqEmpty, .ok reqB] none
    (okRsp { id := "d1" })
    (okRsp { toChangesetMeta := csMeta0, patches := [csPatch ("1"), csPatch ("2")] })
    (okRsp ()) (okRsp draftRsp1)
    (by simp)
    (by intro r hr
        simp at hr
        rcases hr with rfl | rfl | rfl <;> exact ⟨_, rfl⟩)
    ⟨(none, none), rfl⟩ rfl rfl rfl rfl (by decide) (fun _ _ => rfl) rfl rfl rfl rfl

end GitLens
